import Mathlib

/-!
# Verification of the pairing/session engine and moderation pipeline

Shallow embedding of the repository's matching service (`MatchingService`:
waiting queue, active sessions, user→session index) and of its moderation
service (`checkContent`, `determineSeverity`, `trackViolation`, `blockIP`,
`isIPBlocked`).

Modelling conventions:
* JavaScript `Map` objects become association lists with `Map.set` /
  `Map.get` / `Map.delete` semantics (`mset`, `mlookup`, `mdel`).
* `uuidv4()` session ids become a fresh-counter `Nat` (`nextId`), which keeps
  the freshness property actually used by the code.
* `Date.now()` / `new Date()` timestamps become `Nat` millisecond values
  passed in as a `now` argument.
* Classifier category scores (floating-point in the source, used only in
  order comparisons against the literals 0.7, 0.8, 0.9) become `ℚ`.
* The asynchronous Supabase calls are modelled by their results: the
  in-memory `blocked_ips` table for the success path, and an
  `Except Unit` argument where a claim is about the failure path.
-/

/-! ## Definitions -/

/-- `Map.get` semantics on an association list: first binding wins. -/
def mlookup {α β : Type} [DecidableEq α] : List (α × β) → α → Option β
  | [], _ => none
  | (k, v) :: rest, a => if k = a then some v else mlookup rest a

/-- `Map.set` semantics: replace the existing binding, else append. -/
def mset {α β : Type} [DecidableEq α] : List (α × β) → α → β → List (α × β)
  | [], a, b => [(a, b)]
  | (k, v) :: rest, a, b =>
      if k = a then (a, b) :: rest else (k, v) :: mset rest a b

/-- `Map.delete` semantics: remove every binding of the key. -/
def mdel {α β : Type} [DecidableEq α] : List (α × β) → α → List (α × β)
  | [], _ => []
  | (k, v) :: rest, a =>
      if k = a then mdel rest a else (k, v) :: mdel rest a

/-- An active session: `{ user1Id, user2Id, startTime }`. -/
structure Session where
  user1Id : String
  user2Id : String
  startTime : Nat
  deriving DecidableEq, Repr

/-- The record returned by `endSession`: the session spread together with
`endTime` and `reason`. -/
structure EndedSession where
  user1Id : String
  user2Id : String
  startTime : Nat
  endTime : Nat
  reason : String
  deriving DecidableEq, Repr

/-- The value returned by a successful `findMatch`:
`{ sessionId, partnerId }`. -/
structure MatchResult where
  sessionId : Nat
  partnerId : String
  deriving DecidableEq, Repr

/-- The view returned by `getUserSession`:
`{ sessionId, partnerId, startTime }`. -/
structure UserSessionView where
  sessionId : Nat
  partnerId : String
  startTime : Nat
  deriving DecidableEq, Repr

/-- The mutable fields of the `MatchingService` singleton, plus the
fresh-id counter standing in for `uuidv4()`. -/
structure MatchState where
  waitingQueue : List String
  activeSessions : List (Nat × Session)
  userSessions : List (String × Nat)
  nextId : Nat
  deriving DecidableEq, Repr

/-- The state of the freshly constructed `MatchingService`. -/
def initMatchState : MatchState :=
  { waitingQueue := [], activeSessions := [], userSessions := [], nextId := 0 }

/-- `addToWaitingQueue(userId)`. -/
def addToWaitingQueue (s : MatchState) (userId : String) :
    Bool × MatchState :=
  if (mlookup s.userSessions userId).isSome then
    (false, s)
  else if s.waitingQueue.contains userId then
    (false, s)
  else
    (true, { s with waitingQueue := s.waitingQueue ++ [userId] })

/-- `removeFromWaitingQueue(userId)`. -/
def removeFromWaitingQueue (s : MatchState) (userId : String) : MatchState :=
  { s with waitingQueue := s.waitingQueue.filter (fun id => id ≠ userId) }

/-- `waitingQueue.findIndex(id => id !== userId)` followed by reading
`waitingQueue[matchIndex]` and `splice(matchIndex, 1)`: returns the first
entry different from `userId` together with the queue with that entry
removed, or `none` when every entry equals `userId`. -/
def extractFirstOther (userId : String) : List String →
    Option (String × List String)
  | [] => none
  | x :: xs =>
      if x ≠ userId then some (x, xs)
      else
        match extractFirstOther userId xs with
        | none => none
        | some (m, rest) => some (m, x :: rest)

/-- `findMatch(userId)`; `now` stands for `new Date()` at the call. -/
def findMatch (s : MatchState) (userId : String) (now : Nat) :
    Option MatchResult × MatchState :=
  if (mlookup s.userSessions userId).isSome then
    (none, s)
  else if s.waitingQueue.isEmpty then
    (none, (addToWaitingQueue s userId).2)
  else
    match extractFirstOther userId s.waitingQueue with
    | none => (none, (addToWaitingQueue s userId).2)
    | some (matchedUserId, rest) =>
        (some { sessionId := s.nextId, partnerId := matchedUserId },
          { waitingQueue := rest
            activeSessions :=
              mset s.activeSessions s.nextId
                { user1Id := userId, user2Id := matchedUserId,
                  startTime := now }
            userSessions :=
              mset (mset s.userSessions userId s.nextId) matchedUserId
                s.nextId
            nextId := s.nextId + 1 })

/-- `getUserSession(userId)`: the lookup, including the self-healing delete
of a dangling `userSessions` entry. -/
def getUserSession (s : MatchState) (userId : String) :
    Option UserSessionView × MatchState :=
  match mlookup s.userSessions userId with
  | none => (none, s)
  | some sessionId =>
      match mlookup s.activeSessions sessionId with
      | none => (none, { s with userSessions := mdel s.userSessions userId })
      | some session =>
          (some { sessionId := sessionId
                  partnerId :=
                    if session.user1Id = userId then session.user2Id
                    else session.user1Id
                  startTime := session.startTime }, s)

/-- `endSession(sessionId, reason)`; `now` stands for `new Date()`. -/
def endSession (s : MatchState) (sessionId : Nat) (now : Nat)
    (reason : String) : Option EndedSession × MatchState :=
  match mlookup s.activeSessions sessionId with
  | none => (none, s)
  | some session =>
      (some { user1Id := session.user1Id, user2Id := session.user2Id,
              startTime := session.startTime, endTime := now,
              reason := reason },
        { s with
          activeSessions := mdel s.activeSessions sessionId
          userSessions :=
            mdel (mdel s.userSessions session.user1Id) session.user2Id })

/-- `endUserSession(userId, reason)`. -/
def endUserSession (s : MatchState) (userId : String) (now : Nat)
    (reason : String) : Option EndedSession × MatchState :=
  match mlookup s.userSessions userId with
  | none => (none, s)
  | some sessionId => endSession s sessionId now reason

/-- The per-IP record kept in `ipTracker`:
`{ count, lastViolation, warnings }`. -/
structure IPRecord where
  count : Nat
  lastViolation : Nat
  warnings : Nat
  deriving DecidableEq, Repr

/-- A row of the `blocked_ips` table as written by `blockIP`:
`expires_at = none` is a permanent block. -/
structure BlockRow where
  reason : String
  blocked_at : Nat
  expires_at : Option Nat
  block_count : Nat
  deriving DecidableEq, Repr

/-- The state touched by the moderation service: the in-memory `ipTracker`
map and the `blocked_ips` storage table (success path of the Supabase
calls). -/
structure ModState where
  ipTracker : List (String × IPRecord)
  blockedIPs : List (String × BlockRow)
  deriving DecidableEq, Repr

/-- One result object of the classifier response
(`response.data.results[0]`): flags and scores per category. -/
structure ModResult where
  flagged : Bool
  categories : List (String × Bool)
  category_scores : List (String × ℚ)
  deriving DecidableEq, Repr

/-- The verdict returned by `checkContent`; absent JS object fields are
`none`. -/
structure Verdict where
  flagged : Bool
  flagReason : Option String := none
  severity : Option String := none
  categories : Option (List String) := none
  error : Option String := none
  deriving DecidableEq, Repr

/-- The high-severity category list of `determineSeverity`. -/
def highSeverityCategories : List String :=
  ["sexual/minors", "hate/threatening", "violence/graphic", "self-harm"]

/-- `result.categories[category]` coerced to boolean (absent ⇒ falsy). -/
def catFlag (result : ModResult) (category : String) : Bool :=
  (mlookup result.categories category).getD false

/-- `result.category_scores[category] > t` (absent ⇒ comparison false, as
`undefined > t` is false in JS). -/
def catScoreAbove (result : ModResult) (category : String) (t : ℚ) : Bool :=
  match mlookup result.category_scores category with
  | some q => decide (q > t)
  | none => false

/-- `Math.max(...Object.values(result.category_scores))`; `none` models the
`-Infinity` of an empty score object, for which every threshold comparison
is false. -/
def maxScore (result : ModResult) : Option ℚ :=
  match result.category_scores.map Prod.snd with
  | [] => none
  | x :: xs => some (xs.foldl max x)

/-- `determineSeverity(result)`. -/
def determineSeverity (result : ModResult) : String :=
  if highSeverityCategories.any
      (fun c => catFlag result c && catScoreAbove result c (8 / 10)) then
    "high"
  else
    match maxScore result with
    | some m =>
        if m > 9 / 10 then "high"
        else if m > 7 / 10 then "medium"
        else "low"
    | none => "low"

/-- JS `content.trim()` of `checkContent`, modelled on the character list:
strip leading and trailing whitespace. (The byte-position `String.trim` of
the Lean library is definitionally opaque to the kernel; this list version
has the same semantics on the strings involved.) -/
def strTrim (s : String) : String :=
  String.mk
    (((s.data.dropWhile Char.isWhitespace).reverse.dropWhile
      Char.isWhitespace).reverse)

/-- `blockIP(ipAddress, reason, severity)` on the storage success path;
`now` stands for `Date.now()`. The existing-block branch updates
`block_count`, appends to `reason` and rewrites `expires_at`; the
new-block branch inserts a fresh row. -/
def blockIP (st : ModState) (ipAddress reason severity : String)
    (now : Nat) : ModState :=
  match mlookup st.blockedIPs ipAddress with
  | some existingBlock =>
      { st with
        blockedIPs :=
          mset st.blockedIPs ipAddress
            { existingBlock with
              block_count := existingBlock.block_count + 1
              reason := existingBlock.reason ++ "; " ++ reason
              expires_at :=
                if severity = "high" then none
                else some (now + 30 * 24 * 60 * 60 * 1000) } }
  | none =>
      { st with
        blockedIPs :=
          mset st.blockedIPs ipAddress
            { reason := reason
              blocked_at := now
              expires_at :=
                if severity = "high" then none
                else some (now + 7 * 24 * 60 * 60 * 1000)
              block_count := 1 } }

/-- `trackViolation(ipAddress, severity, reason)`; `now` stands for
`Date.now()`. -/
def trackViolation (st : ModState) (ipAddress severity reason : String)
    (now : Nat) : ModState :=
  let record :=
    match mlookup st.ipTracker ipAddress with
    | some r => r
    | none => { count := 0, lastViolation := now, warnings := 0 }
  let record1 :=
    { record with count := record.count + 1, lastViolation := now }
  let record2 :=
    if severity ≠ "low" then
      { record1 with warnings := record1.warnings + 1 }
    else record1
  let st1 := { st with ipTracker := mset st.ipTracker ipAddress record2 }
  if (severity = "high" ∧ record2.warnings ≥ 1) ∨
      (severity = "medium" ∧ record2.warnings ≥ 3) ∨
      (record2.warnings ≥ 5) then
    blockIP st1 ipAddress reason severity now
  else
    st1

/-- `checkContent(content, ipAddress)`. The awaited classifier call is the
`resp` argument: `Except.error ()` is a failed or unreachable call (the
`catch` branch), `Except.ok result` a successful response. -/
def checkContent (st : ModState) (content : String)
    (ipAddress : Option String) (resp : Except Unit ModResult)
    (now : Nat) : Verdict × ModState :=
  if strTrim content = "" then
    ({ flagged := false }, st)
  else
    match resp with
    | Except.error _ =>
        ({ flagged := false, error := some "Moderation service unavailable" },
          st)
    | Except.ok result =>
        if result.flagged then
          let flaggedCategories :=
            (result.categories.filter (fun kv => kv.2)).map Prod.fst
          let severity := determineSeverity result
          let st2 :=
            match ipAddress with
            | some ip =>
                if severity ≠ "low" then
                  trackViolation st ip severity
                    (String.intercalate ", " flaggedCategories) now
                else st
            | none => st
          ({ flagged := true
             flagReason :=
               some ("Content flagged for: " ++
                 String.intercalate ", " flaggedCategories)
             severity := some severity
             categories := some flaggedCategories }, st2)
        else
          ({ flagged := false }, st)

/-- `isIPBlocked(ipAddress)`. The awaited storage lookup is the `resp`
argument: `Except.error ()` is a raised storage error (the `catch`
branch), `Except.ok none` an absent row, `Except.ok (some row)` the stored
block row; `now` stands for `new Date()`. -/
def isIPBlocked (resp : Except Unit (Option BlockRow)) (now : Nat) : Bool :=
  match resp with
  | Except.error _ => false
  | Except.ok none => false
  | Except.ok (some data) =>
      match data.expires_at with
      | some t => if t < now then false else true
      | none => true

/-- One call to the matching service: `addToWaitingQueue`, `findMatch` or
`endSession`. -/
inductive MatchOp where
  | enqueue (userId : String)
  | tryMatch (userId : String) (now : Nat)
  | endSess (sessionId : Nat) (now : Nat) (reason : String)
  deriving DecidableEq, Repr

/-- State after one operation (return values discarded). -/
def applyOp (s : MatchState) : MatchOp → MatchState
  | MatchOp.enqueue u => (addToWaitingQueue s u).2
  | MatchOp.tryMatch u now => (findMatch s u now).2
  | MatchOp.endSess sid now reason => (endSession s sid now reason).2

/-- State after a sequence of operations. -/
def runOps (s : MatchState) : List MatchOp → MatchState
  | [] => s
  | op :: ops => runOps (applyOp s op) ops

/-- Side condition on one operation: a `findMatch` call is made by an
identity not currently in the waiting queue. -/
def okOp (s : MatchState) : MatchOp → Bool
  | MatchOp.tryMatch u _ => !s.waitingQueue.contains u
  | _ => true

/-- Side condition along a whole sequence. -/
def okOps (s : MatchState) : List MatchOp → Bool
  | [] => true
  | op :: ops => okOp s op && okOps (applyOp s op) ops

/-- The no-duplication invariant: the waiting queue has no duplicate
entries, and no queued identity is mapped in the session index. -/
def MatchInv (s : MatchState) : Prop :=
  s.waitingQueue.Nodup ∧
  ∀ u ∈ s.waitingQueue, mlookup s.userSessions u = none

instance instDecidableMatchInv (s : MatchState) : Decidable (MatchInv s) :=
  inferInstanceAs (Decidable (_ ∧ _))

/-- A concrete flagged classifier result of high severity, used for
evaluating the moderation path on a sample input. -/
def sampleHighResult : ModResult :=
  { flagged := true, categories := [("self-harm", true)],
    category_scores := [("self-harm", 9 / 10)] }

/-! ## Lemmas on the map operations -/

theorem mlookup_mset_self {α β : Type} [DecidableEq α]
    (m : List (α × β)) (k : α) (v : β) : mlookup (mset m k v) k = some v := by
  induction m with
  | nil => simp [mset, mlookup]
  | cons hd tl ih =>
      rcases hd with ⟨a, b⟩
      by_cases h : a = k <;> simp [mset, mlookup, h, ih]

theorem mlookup_mset_ne {α β : Type} [DecidableEq α]
    (m : List (α × β)) {k k' : α} (v : β) (h : k' ≠ k) :
    mlookup (mset m k v) k' = mlookup m k' := by
  have h2 : ¬ (k = k') := fun e => h e.symm
  induction m with
  | nil => simp [mset, mlookup, h2]
  | cons hd tl ih =>
      rcases hd with ⟨a, b⟩
      by_cases hk : a = k
      · subst hk; simp [mset, mlookup, h2]
      · simp [mset, mlookup, hk, ih]

theorem mlookup_mdel {α β : Type} [DecidableEq α]
    (m : List (α × β)) (k k' : α) :
    mlookup (mdel m k) k' = if k' = k then none else mlookup m k' := by
  induction m with
  | nil => simp [mdel, mlookup]
  | cons hd tl ih =>
      rcases hd with ⟨a, b⟩
      by_cases hk : a = k
      · subst hk
        by_cases he : k' = a
        · subst he; simp [mdel, mlookup, ih]
        · have h3 : ¬ (a = k') := fun e => he e.symm
          simp [mdel, mlookup, ih, he, h3]
      · by_cases hk' : a = k'
        · subst hk'; simp [mdel, mlookup, hk]
        · simp [mdel, mlookup, hk, hk', ih]

/-! ## Lemmas on the matching service -/

theorem extractFirstOther_decomp {userId m : String} {l rest : List String}
    (h : extractFirstOther userId l = some (m, rest)) :
    ∃ l1 l2, l = l1 ++ m :: l2 ∧ rest = l1 ++ l2 ∧ m ≠ userId := by
  induction l generalizing rest with
  | nil => simp [extractFirstOther] at h
  | cons x xs ih =>
      by_cases hx : x = userId
      · subst hx
        simp only [extractFirstOther, ne_eq, not_true_eq_false,
          if_false] at h
        cases heo : extractFirstOther x xs with
        | none => rw [heo] at h; simp at h
        | some p =>
            rcases p with ⟨m2, rest2⟩
            rw [heo] at h
            simp only [Option.some.injEq, Prod.mk.injEq] at h
            obtain ⟨hm, hr⟩ := h
            subst hm
            obtain ⟨l1, l2, he1, he2, hne⟩ := ih heo
            exact ⟨x :: l1, l2, by simp [he1], by simp [← hr, he2], hne⟩
      · simp only [extractFirstOther, ne_eq, hx, not_false_eq_true,
          if_true, Option.some.injEq, Prod.mk.injEq] at h
        obtain ⟨hm, hr⟩ := h
        subst hm
        exact ⟨[], xs, by simp, by simp [hr], hx⟩

theorem findMatch_eq_some {s : MatchState} {u : String} {now : Nat}
    {r : MatchResult} {s2 : MatchState}
    (h : findMatch s u now = (some r, s2)) :
    mlookup s.userSessions u = none ∧
    ∃ rest, extractFirstOther u s.waitingQueue = some (r.partnerId, rest) ∧
      r.sessionId = s.nextId ∧
      s2 = { waitingQueue := rest
             activeSessions :=
               mset s.activeSessions s.nextId
                 { user1Id := u, user2Id := r.partnerId, startTime := now }
             userSessions :=
               mset (mset s.userSessions u s.nextId) r.partnerId s.nextId
             nextId := s.nextId + 1 } := by
  unfold findMatch at h
  split at h
  · simp at h
  · next hus =>
      rw [Option.not_isSome_iff_eq_none] at hus
      refine ⟨hus, ?_⟩
      split at h
      · simp at h
      · split at h
        · simp at h
        · next m rest heo =>
            simp only [Prod.mk.injEq, Option.some.injEq] at h
            obtain ⟨hr, hs⟩ := h
            refine ⟨rest, ?_, ?_, ?_⟩
            · rw [heo, ← hr]
            · rw [← hr]
            · rw [← hs, ← hr]

theorem inv_addToWaitingQueue {s : MatchState} (hs : MatchInv s)
    (u : String) : MatchInv (addToWaitingQueue s u).2 := by
  obtain ⟨hnd, hdis⟩ := hs
  unfold addToWaitingQueue
  split
  · exact ⟨hnd, hdis⟩
  · next h1 =>
      rw [Option.not_isSome_iff_eq_none] at h1
      split
      · exact ⟨hnd, hdis⟩
      · next h2 =>
          have hu : u ∉ s.waitingQueue := by simpa using h2
          constructor
          · exact List.Nodup.append hnd (List.nodup_singleton u)
              (by simpa [List.disjoint_singleton] using hu)
          · intro v hv
            rcases List.mem_append.mp hv with h3 | h3
            · exact hdis v h3
            · rw [List.mem_singleton.mp h3]; exact h1

theorem inv_findMatch {s : MatchState} (hs : MatchInv s) {u : String}
    (hu : u ∉ s.waitingQueue) (now : Nat) :
    MatchInv (findMatch s u now).2 := by
  unfold findMatch
  split
  · exact hs
  · next hus =>
      rw [Option.not_isSome_iff_eq_none] at hus
      split
      · exact inv_addToWaitingQueue hs u
      · cases heo : extractFirstOther u s.waitingQueue with
        | none => simp only [heo]; exact inv_addToWaitingQueue hs u
        | some p =>
            rcases p with ⟨m, rest⟩
            simp only [heo]
            obtain ⟨hnd, hdis⟩ := hs
            obtain ⟨l1, l2, he1, he2, hne⟩ := extractFirstOther_decomp heo
            have hnd2 := List.nodup_cons.mp (List.nodup_middle.mp
              (he1 ▸ hnd))
            constructor
            · exact he2 ▸ hnd2.2
            · intro v hv
              have hv2 : v ∈ rest := hv
              have hvq : v ∈ s.waitingQueue := by
                rw [he1]
                rw [he2] at hv2
                rcases List.mem_append.mp hv2 with h3 | h3
                · exact List.mem_append.mpr (Or.inl h3)
                · exact List.mem_append.mpr
                    (Or.inr (List.mem_cons_of_mem _ h3))
              have hvu : v ≠ u := fun e => hu (e ▸ hvq)
              have hvm : v ≠ m := fun e => hnd2.1 (e ▸ (he2 ▸ hv2))
              show mlookup (mset (mset s.userSessions u s.nextId) m
                s.nextId) v = none
              rw [mlookup_mset_ne _ _ hvm, mlookup_mset_ne _ _ hvu]
              exact hdis v hvq

theorem inv_endSession {s : MatchState} (hs : MatchInv s) (sid now : Nat)
    (reason : String) : MatchInv (endSession s sid now reason).2 := by
  obtain ⟨hnd, hdis⟩ := hs
  unfold endSession
  cases h : mlookup s.activeSessions sid with
  | none => exact ⟨hnd, hdis⟩
  | some sess =>
      refine ⟨hnd, ?_⟩
      intro v hv
      show mlookup (mdel (mdel s.userSessions sess.user1Id) sess.user2Id)
        v = none
      rw [mlookup_mdel, mlookup_mdel]
      by_cases h1 : v = sess.user2Id
      · simp [h1]
      · by_cases h2 : v = sess.user1Id <;> simp [h1, h2, hdis v hv]

theorem inv_applyOp {s : MatchState} (hs : MatchInv s) {op : MatchOp}
    (hok : okOp s op = true) : MatchInv (applyOp s op) := by
  cases op with
  | enqueue u => exact inv_addToWaitingQueue hs u
  | tryMatch u now =>
      have hu : u ∉ s.waitingQueue := by
        simp only [okOp, Bool.not_eq_true'] at hok
        simpa using hok
      exact inv_findMatch hs hu now
  | endSess sid now reason => exact inv_endSession hs sid now reason

theorem inv_runOps {s : MatchState} (ops : List MatchOp) (hs : MatchInv s)
    (hok : okOps s ops = true) : MatchInv (runOps s ops) := by
  induction ops generalizing s with
  | nil => exact hs
  | cons op ops ih =>
      simp only [okOps, Bool.and_eq_true] at hok
      exact ih (inv_applyOp hs hok.1) hok.2

theorem findMatch_partner_dequeued {s : MatchState} (hs : MatchInv s)
    {u : String} (hu : u ∉ s.waitingQueue) {now : Nat} {r : MatchResult}
    {s2 : MatchState} (h : findMatch s u now = (some r, s2)) :
    u ∉ s2.waitingQueue ∧ r.partnerId ∉ s2.waitingQueue := by
  obtain ⟨-, rest, heo, -, hs2⟩ := findMatch_eq_some h
  obtain ⟨l1, l2, he1, he2, -⟩ := extractFirstOther_decomp heo
  have hnd2 := List.nodup_cons.mp (List.nodup_middle.mp (he1 ▸ hs.1))
  subst hs2
  constructor
  · show u ∉ rest
    intro hvu
    apply hu
    rw [he1]
    rw [he2] at hvu
    rcases List.mem_append.mp hvu with h1 | h1
    · exact List.mem_append.mpr (Or.inl h1)
    · exact List.mem_append.mpr (Or.inr (List.mem_cons_of_mem _ h1))
  · show r.partnerId ∉ rest
    rw [he2]
    exact hnd2.1

/-! ## Claims -/

/-- C6: if the classifier call fails or is unreachable (the `catch` branch
of `checkContent`), the verdict has `flagged = false` and the moderation
state — in particular the violation tracker — is unchanged, for every
message content and origin key. -/
theorem checkContent_fail_open (st : ModState) (content : String)
    (ipAddress : Option String) (now : Nat) :
    (checkContent st content ipAddress (Except.error ()) now).1.flagged =
      false ∧
    (checkContent st content ipAddress (Except.error ()) now).2 = st := by
  unfold checkContent
  by_cases h : strTrim content = "" <;> simp [h]

/-- C10: if the storage lookup of `isIPBlocked` raises an error (the
`catch` branch), the result is `false`; the same origin with a permanent
block row would have been reported blocked had the lookup succeeded. -/
theorem isIPBlocked_storage_error (now : Nat) :
    isIPBlocked (Except.error ()) now = false ∧
    isIPBlocked
      (Except.ok (some (⟨"violation", 0, none, 1⟩ : BlockRow))) now =
        true := by
  exact ⟨rfl, rfl⟩

/-- C2 counterexample: a flagged result whose severity is `low`, with an
origin key supplied, does not invoke `trackViolation`: the moderation
state comes back unchanged, although invoking `trackViolation` would have
changed it. -/
theorem checkContent_low_severity_not_recorded :
    determineSeverity
      { flagged := true, categories := [("harassment", true)],
        category_scores := [("harassment", 1 / 2)] } = "low" ∧
    (checkContent { ipTracker := [], blockedIPs := [] } "bad"
        (some "1.2.3.4")
        (Except.ok
          { flagged := true, categories := [("harassment", true)],
            category_scores := [("harassment", 1 / 2)] }) 0).1.severity =
      some "low" ∧
    (checkContent { ipTracker := [], blockedIPs := [] } "bad"
        (some "1.2.3.4")
        (Except.ok
          { flagged := true, categories := [("harassment", true)],
            category_scores := [("harassment", 1 / 2)] }) 0).2 =
      { ipTracker := [], blockedIPs := [] } ∧
    trackViolation { ipTracker := [], blockedIPs := [] } "1.2.3.4" "low"
        "harassment" 0 ≠
      { ipTracker := [], blockedIPs := [] } := by
  have htrim : ¬ (strTrim "bad" = "") := by decide
  refine ⟨?_, ?_, ?_, ?_⟩ <;>
    simp [checkContent, determineSeverity, catFlag, catScoreAbove, maxScore,
      highSeverityCategories, mlookup, trackViolation, mset, htrim,
      ModState.mk.injEq] <;>
    norm_num

/-- C2 amended: when classification succeeds on non-empty content with a
flagged result whose severity is `medium` or `high` (i.e. not `low`), and
an origin key is supplied, `checkContent` invokes `trackViolation` on that
key with that severity and the joined flagged categories. -/
theorem checkContent_records_medium_high (st : ModState) (content : String)
    (ip : String) (result : ModResult) (now : Nat)
    (h1 : ¬ strTrim content = "")
    (h2 : result.flagged = true)
    (h3 : ¬ determineSeverity result = "low") :
    checkContent st content (some ip) (Except.ok result) now =
      ({ flagged := true
         flagReason :=
           some ("Content flagged for: " ++
             String.intercalate ", "
               ((result.categories.filter (fun kv => kv.2)).map Prod.fst))
         severity := some (determineSeverity result)
         categories :=
           some ((result.categories.filter (fun kv => kv.2)).map Prod.fst) },
        trackViolation st ip (determineSeverity result)
          (String.intercalate ", "
            ((result.categories.filter (fun kv => kv.2)).map Prod.fst))
          now) := by
  simp [checkContent, h1, h2, h3]

/-- C3: evaluation of `blockIP` at the failing input — a subject with a
permanent pre-existing block (`expires_at = none`) hit by a triggered rule
of severity `medium` has its block rewritten to a finite 30-day expiry
(the opposite of the "never narrowed" behaviour the comment above the
update describes as extending), while the reason is indeed appended. -/
theorem blockIP_narrows_permanent_block :
    mlookup
      (blockIP
        { ipTracker := [],
          blockedIPs := [("1.2.3.4", (⟨"r1", 0, none, 1⟩ : BlockRow))] }
        "1.2.3.4" "r2" "medium" 5).blockedIPs "1.2.3.4" =
      some (⟨"r1; r2", 0, some (5 + 30 * 24 * 60 * 60 * 1000), 2⟩ :
        BlockRow) := by
  decide

/-- C4: from a subject key with no prior record and no prior block row, a
single `trackViolation` with severity `high` yields
`{count = 1, warnings = 1}` and inserts a permanent block row
(`expires_at = none`) for that key. -/
theorem trackViolation_high_first_blocks (st : ModState)
    (key reason : String) (now : Nat)
    (h1 : mlookup st.ipTracker key = none)
    (h2 : mlookup st.blockedIPs key = none) :
    mlookup (trackViolation st key "high" reason now).ipTracker key =
      some { count := 1, lastViolation := now, warnings := 1 } ∧
    mlookup (trackViolation st key "high" reason now).blockedIPs key =
      some { reason := reason, blocked_at := now, expires_at := none,
             block_count := 1 } := by
  simp [trackViolation, blockIP, h1, h2, mlookup_mset_self]

/-- C5: from a subject key with no prior record and no prior block row,
three consecutive `trackViolation` calls with severity `medium` leave the
block table without a row for the key after the first and second call, and
insert a 7-day block row exactly on the third call. -/
theorem trackViolation_three_mediums_block (st : ModState)
    (key r1 r2 r3 : String) (n1 n2 n3 : Nat)
    (h1 : mlookup st.ipTracker key = none)
    (h2 : mlookup st.blockedIPs key = none) :
    mlookup (trackViolation st key "medium" r1 n1).blockedIPs key = none ∧
    mlookup
      (trackViolation (trackViolation st key "medium" r1 n1) key "medium"
        r2 n2).blockedIPs key = none ∧
    mlookup
      (trackViolation
        (trackViolation (trackViolation st key "medium" r1 n1) key "medium"
          r2 n2) key "medium" r3 n3).blockedIPs key =
      some { reason := r3, blocked_at := n3,
             expires_at := some (n3 + 7 * 24 * 60 * 60 * 1000),
             block_count := 1 } := by
  simp [trackViolation, blockIP, h1, h2, mlookup_mset_self]

/-- C7: if `findMatch` called by `u` returns a partner, the partner
differs from `u`, the stored session's participants are exactly `u` and
the partner, and `getUserSession` on either participant resolves to the
same session id. -/
theorem findMatch_symmetric_session (s : MatchState) (u : String)
    (now : Nat) (r : MatchResult) (s2 : MatchState)
    (h : findMatch s u now = (some r, s2)) :
    r.partnerId ≠ u ∧
    mlookup s2.activeSessions r.sessionId =
      some { user1Id := u, user2Id := r.partnerId, startTime := now } ∧
    (getUserSession s2 u).1 =
      some { sessionId := r.sessionId, partnerId := r.partnerId,
             startTime := now } ∧
    (getUserSession s2 r.partnerId).1 =
      some { sessionId := r.sessionId, partnerId := u,
             startTime := now } := by
  obtain ⟨hus, rest, heo, hsid, hs2⟩ := findMatch_eq_some h
  obtain ⟨l1, l2, -, -, hne⟩ := extractFirstOther_decomp heo
  have hne2 : ¬ (u = r.partnerId) := fun e => hne e.symm
  subst hs2
  refine ⟨hne, ?_, ?_, ?_⟩
  · simp [hsid, mlookup_mset_self]
  · have h1 :
        mlookup (mset (mset s.userSessions u s.nextId) r.partnerId
          s.nextId) u = some s.nextId := by
      rw [mlookup_mset_ne _ _ hne2, mlookup_mset_self]
    simp [getUserSession, hsid, h1, mlookup_mset_self]
  · simp [getUserSession, hsid, mlookup_mset_self, hne2]

/-- C8: if the waiting queue holds only `u` and `u` is in no session,
`findMatch(u)` returns no partner and leaves the state unchanged, so `u`
stays queued exactly once; and in general a returned partner is never the
caller (no self-match). -/
theorem findMatch_no_self_match :
    (∀ (s : MatchState) (u : String) (now : Nat),
      s.waitingQueue = [u] → mlookup s.userSessions u = none →
      findMatch s u now = (none, s) ∧
      (findMatch s u now).2.waitingQueue.count u = 1) ∧
    (∀ (s : MatchState) (u : String) (now : Nat) (r : MatchResult)
      (s2 : MatchState), findMatch s u now = (some r, s2) →
      r.partnerId ≠ u) := by
  constructor
  · intro s u now hq hus
    have hmain : findMatch s u now = (none, s) := by
      unfold findMatch
      rw [hus]
      simp [hq, extractFirstOther, addToWaitingQueue, hus]
    refine ⟨hmain, ?_⟩
    rw [hmain]
    simp [hq]
  · intro s u now r s2 h
    obtain ⟨-, rest, heo, -, -⟩ := findMatch_eq_some h
    obtain ⟨l1, l2, -, -, hne⟩ := extractFirstOther_decomp heo
    exact hne

/-- C9: ending an active session returns the removed record; a second
`endSession` with the same id returns `none` and leaves the state of the
first call unchanged. -/
theorem endSession_idempotent (s : MatchState) (sid : Nat) (sess : Session)
    (n1 n2 : Nat) (reason1 reason2 : String)
    (h : mlookup s.activeSessions sid = some sess) :
    (endSession s sid n1 reason1).1 =
      some { user1Id := sess.user1Id, user2Id := sess.user2Id,
             startTime := sess.startTime, endTime := n1,
             reason := reason1 } ∧
    endSession (endSession s sid n1 reason1).2 sid n2 reason2 =
      (none, (endSession s sid n1 reason1).2) := by
  constructor
  · simp [endSession, h]
  · simp [endSession, h, mlookup_mdel]

/-- C1 counterexample: from the empty state, `addToWaitingQueue("a")`,
`addToWaitingQueue("b")`, then `findMatch("a")` returns a partner, yet
"a" is still in the waiting queue while also being mapped in the session
index — and so remains in the queue right after `findMatch` returned a
partner for it. -/
theorem findMatch_caller_left_in_queue :
    ((findMatch (addToWaitingQueue (addToWaitingQueue initMatchState
      "a").2 "b").2 "a" 0).1).isSome = true ∧
    "a" ∈ (findMatch (addToWaitingQueue (addToWaitingQueue initMatchState
      "a").2 "b").2 "a" 0).2.waitingQueue ∧
    (mlookup (findMatch (addToWaitingQueue (addToWaitingQueue
      initMatchState "a").2 "b").2 "a" 0).2.userSessions "a").isSome =
      true := by
  decide

/-- C1 amended: along any sequence of `addToWaitingQueue` / `findMatch` /
`endSession` calls from a state satisfying the no-duplication invariant
(such as the empty state), in which every `findMatch` call is made by an
identity not currently in the waiting queue, the invariant holds at every
point: the queue is duplicate-free and no identity is at once queued and
in the session index; moreover a `findMatch` from such a reachable state,
by a caller not in the queue, that returns a partner leaves both the
caller and the partner out of the waiting queue. -/
theorem matchOps_no_duplication (s : MatchState) (ops : List MatchOp)
    (u : String) (now : Nat) (r : MatchResult) (s2 : MatchState)
    (hs : MatchInv s) (hok : okOps s ops = true) :
    MatchInv (runOps s ops) ∧
    (u ∉ (runOps s ops).waitingQueue →
      findMatch (runOps s ops) u now = (some r, s2) →
      u ∉ s2.waitingQueue ∧ r.partnerId ∉ s2.waitingQueue) := by
  have hinv := inv_runOps ops hs hok
  exact ⟨hinv, fun hu h => findMatch_partner_dequeued hinv hu h⟩

/-! ## Witnesses -/

theorem checkContent_records_medium_high_witness :
    checkContent { ipTracker := [], blockedIPs := [] } "bad"
      (some "9.9.9.9") (Except.ok sampleHighResult) 0 =
      ({ flagged := true
         flagReason :=
           some ("Content flagged for: " ++
             String.intercalate ", "
               ((sampleHighResult.categories.filter
                 (fun kv => kv.2)).map Prod.fst))
         severity := some (determineSeverity sampleHighResult)
         categories :=
           some ((sampleHighResult.categories.filter
             (fun kv => kv.2)).map Prod.fst) },
        trackViolation { ipTracker := [], blockedIPs := [] } "9.9.9.9"
          (determineSeverity sampleHighResult)
          (String.intercalate ", "
            ((sampleHighResult.categories.filter
              (fun kv => kv.2)).map Prod.fst))
          0) :=
  checkContent_records_medium_high { ipTracker := [], blockedIPs := [] }
    "bad" "9.9.9.9" sampleHighResult 0
    (by decide) rfl
    (by simp [determineSeverity, sampleHighResult, catFlag, catScoreAbove,
          maxScore, highSeverityCategories, mlookup]
        norm_num
        decide)

theorem trackViolation_high_first_blocks_witness :
    mlookup (trackViolation { ipTracker := [], blockedIPs := [] }
      "9.9.9.9" "high" "hate" 7).ipTracker "9.9.9.9" =
      some { count := 1, lastViolation := 7, warnings := 1 } ∧
    mlookup (trackViolation { ipTracker := [], blockedIPs := [] }
      "9.9.9.9" "high" "hate" 7).blockedIPs "9.9.9.9" =
      some { reason := "hate", blocked_at := 7, expires_at := none,
             block_count := 1 } :=
  trackViolation_high_first_blocks { ipTracker := [], blockedIPs := [] }
    "9.9.9.9" "hate" 7 rfl rfl

theorem trackViolation_three_mediums_block_witness :
    mlookup (trackViolation { ipTracker := [], blockedIPs := [] } "k"
      "medium" "r1" 1).blockedIPs "k" = none ∧
    mlookup
      (trackViolation (trackViolation { ipTracker := [], blockedIPs := [] }
        "k" "medium" "r1" 1) "k" "medium" "r2" 2).blockedIPs "k" = none ∧
    mlookup
      (trackViolation
        (trackViolation (trackViolation
          { ipTracker := [], blockedIPs := [] } "k" "medium" "r1" 1) "k"
          "medium" "r2" 2) "k" "medium" "r3" 3).blockedIPs "k" =
      some { reason := "r3", blocked_at := 3,
             expires_at := some (3 + 7 * 24 * 60 * 60 * 1000),
             block_count := 1 } :=
  trackViolation_three_mediums_block { ipTracker := [], blockedIPs := [] }
    "k" "r1" "r2" "r3" 1 2 3 rfl rfl

theorem findMatch_symmetric_session_witness :
    ((⟨0, "b"⟩ : MatchResult).partnerId ≠ "a") ∧
    mlookup ((⟨[], [(0, ⟨"a", "b", 0⟩)], [("a", 0), ("b", 0)], 1⟩ :
      MatchState)).activeSessions 0 =
      some { user1Id := "a", user2Id := "b", startTime := 0 } ∧
    (getUserSession (⟨[], [(0, ⟨"a", "b", 0⟩)], [("a", 0), ("b", 0)], 1⟩ :
      MatchState) "a").1 =
      some { sessionId := 0, partnerId := "b", startTime := 0 } ∧
    (getUserSession (⟨[], [(0, ⟨"a", "b", 0⟩)], [("a", 0), ("b", 0)], 1⟩ :
      MatchState) "b").1 =
      some { sessionId := 0, partnerId := "a", startTime := 0 } :=
  findMatch_symmetric_session (⟨["b"], [], [], 0⟩ : MatchState) "a" 0
    ⟨0, "b"⟩ ⟨[], [(0, ⟨"a", "b", 0⟩)], [("a", 0), ("b", 0)], 1⟩
    (by decide)

theorem findMatch_no_self_match_witness :
    findMatch (⟨["a"], [], [], 0⟩ : MatchState) "a" 0 =
      (none, (⟨["a"], [], [], 0⟩ : MatchState)) ∧
    (findMatch (⟨["a"], [], [], 0⟩ : MatchState) "a"
      0).2.waitingQueue.count "a" = 1 :=
  findMatch_no_self_match.1 ⟨["a"], [], [], 0⟩ "a" 0 rfl rfl

theorem endSession_idempotent_witness :
    (endSession (⟨[], [(0, ⟨"a", "b", 0⟩)], [("a", 0), ("b", 0)], 1⟩ :
      MatchState) 0 9 "ended").1 =
      some { user1Id := "a", user2Id := "b", startTime := 0, endTime := 9,
             reason := "ended" } ∧
    endSession (endSession (⟨[], [(0, ⟨"a", "b", 0⟩)],
      [("a", 0), ("b", 0)], 1⟩ : MatchState) 0 9 "ended").2 0 10 "again" =
      (none, (endSession (⟨[], [(0, ⟨"a", "b", 0⟩)],
        [("a", 0), ("b", 0)], 1⟩ : MatchState) 0 9 "ended").2) :=
  endSession_idempotent _ 0 ⟨"a", "b", 0⟩ 9 10 "ended" "again" rfl

theorem matchOps_no_duplication_witness :
    MatchInv (runOps initMatchState
      [MatchOp.enqueue "a", MatchOp.tryMatch "b" 0,
       MatchOp.endSess 0 1 "done"]) :=
  (matchOps_no_duplication initMatchState
    [MatchOp.enqueue "a", MatchOp.tryMatch "b" 0,
     MatchOp.endSess 0 1 "done"]
    "c" 2 ⟨5, "x"⟩ initMatchState (by decide) (by decide)).1
